import Mathlib

/-!
Shallow embedding of `src/Hacker.py` (class `CasinoAnalyzer`): a heuristic
casino-outcome analyzer.  Outcomes are the strings used by the source
("C" = Player, "V" = Banker, "E" = Tie); a history is a `List String`
ordered oldest-first, exactly as `self.results`.  Fractional quantities
(strengths, ratios, confidences, predictability) are embedded as `ℚ`;
integer scores as `ℕ`.  Python dictionaries with kind-specific optional
keys become a structure with `Option` payload fields, mirroring the
source's use of `pattern.get(key, default)`.
-/

namespace Hacker

/-- A detected pattern record (one Python dict appended to `patterns`).
Payload fields that only some kinds carry are `Option`s defaulting to
`none`, matching `dict.get` with a default in the source. -/
structure Pattern where
  type : String
  strength : ℚ
  risk : String
  description : String
  manipulation : String
  predictability : ℚ
  cycle_size : Option Nat := none
  pattern : Option String := none
  repetitions : Option Nat := none
  window_size : Option Nat := none
  balance : Option String := none
  imbalance : Option Nat := none
  favored_color : Option String := none
  position : Option Nat := none
  sequence_color : Option String := none
  sequence_length : Option Nat := none
  from_color : Option String := none
  to_color : Option String := none
deriving DecidableEq

/-- Result of `assess_risk`. -/
structure Risk where
  level : String
  score : Nat
  factors : List String
deriving DecidableEq

/-- Result of `detect_manipulation`. -/
structure Manipulation where
  level : String
  score : Nat
  signs : List String
deriving DecidableEq

/-- Result of `make_prediction`. -/
structure Prediction where
  color : Option String
  confidence : ℚ
  reasoning : String
  strategy : String
deriving DecidableEq

/-- Source: `[r for r in self.results if r != 'E']` — the tie-filtered history. -/
def nonEmpate (results : List String) : List String :=
  results.filter (fun r => decide (r ≠ "E"))

/-- Source: `self.results[-6:]` (used when `len(self.results) >= 6`). -/
def last6 (results : List String) : List String :=
  results.drop (results.length - 6)

/-- Source: `sum(1 for i in range(0, 6, 2) if i + 1 < 6 and last6[i] == last6[i+1]
and last6[i] != 'E')`; `range(0, 6, 2) = [0, 2, 4]`, and `i + 1 < 6` holds
for each of them. -/
def double_pattern_count (results : List String) : Nat :=
  ([0, 2, 4] : List Nat).countP (fun i =>
    decide ((last6 results).getD i ("") = (last6 results).getD (i+1) ("") ∧
            (last6 results).getD i ("") ≠ "E"))

/-- Source: `[r for r in self.results if r != 'E'][-8:]`. -/
def last8_non_empate (results : List String) : List String :=
  (nonEmpate results).drop ((nonEmpate results).length - 8)

/-- Source: `sum(1 for i in range(1, min(6, len(last8_non_empate)))
if last8_non_empate[i] != last8_non_empate[i-1])`. -/
def micro_alternations (results : List String) : Nat :=
  (List.range' 1 (min 6 (last8_non_empate results).length - 1)).countP (fun i =>
    decide ((last8_non_empate results).getD i ("") ≠
            (last8_non_empate results).getD (i-1) ("")))

/-- Number of differing adjacent pairs of a list: comparisons of `l[i]`
with `l[i-1]` for `i` in `range(1, len(l))`.  Used to pin down which six
elements of the tie-filtered suffix the micro-alternation count actually
inspects. -/
def adjacent_diff_count (l : List String) : Nat :=
  (List.range' 1 (l.length - 1)).countP (fun i =>
    decide (l.getD i ("") ≠ l.getD (i-1) ("")))

/-- The `micro_double_pattern` dict built at lines 19–26 of the source. -/
def microDoubleRecord (c : Nat) : Pattern :=
  { type := "micro_double_pattern"
  , strength := (c : ℚ) / 3
  , risk := if c = 3 then "critical" else "high"
  , description := "Padrão 2x2 repetitivo (" ++ toString c ++ "/3)"
  , manipulation := if c = 3 then "CRÍTICA - Sistema forçando padrão" else "ALTA"
  , predictability := 85 }

/-- The `micro_alternation` dict built at lines 33–40 of the source. -/
def microAlternationRecord (k : Nat) : Pattern :=
  { type := "micro_alternation"
  , strength := (k : ℚ) / 5
  , risk := if k = 5 then "critical" else "high"
  , description := "Micro-alternação suspeita (" ++ toString k ++ "/5)"
  , manipulation := "Sistema induzindo alternância artificial"
  , predictability := 90 }

/-- Embeds `CasinoAnalyzer.analyze_micro_patterns`. -/
def analyze_micro_patterns (results : List String) : List Pattern :=
  if results.length < 6 then []
  else
    (if 2 ≤ double_pattern_count results then
        [microDoubleRecord (double_pattern_count results)]
      else []) ++
    (if 6 ≤ (last8_non_empate results).length then
        (if 4 ≤ micro_alternations results then
            [microAlternationRecord (micro_alternations results)]
          else [])
      else [])

/-- Unique elements of a list in first-occurrence order; emulates the key
order of a Python `Counter` built by insertion. -/
def first_occurrences (l : List String) : List String :=
  l.foldl (fun acc x => if x ∈ acc then acc else acc ++ [x]) []

/-- Source: `Counter(cycles).items()`: each distinct element with its count, in
first-occurrence order. -/
def cycle_counts (cycles : List String) : List (String × Nat) :=
  (first_occurrences cycles).map (fun c => (c, cycles.count c))

/-- Python's `max(l, key=lambda x: x[1])`: the first element attaining the
maximal count (a later element replaces the current best only when its
count is strictly greater). -/
def max_by_count : List (String × Nat) → Option (String × Nat)
  | [] => none
  | x :: xs => some (xs.foldl (fun best y => if best.2 < y.2 then y else best) x)

/-- Source: `[''.join(non_empate[i:i+cycle_size]) for i in range(len(non_empate) -
cycle_size + 1)]`.  (`detect_hidden_cycles` only calls this with
`12 ≤ non_empate.length` and `cycle_size ≤ 6`, where the `Nat` subtraction
agrees with Python's.) -/
def cycle_windows (non_empate : List String) (cycle_size : Nat) : List String :=
  (List.range (non_empate.length - cycle_size + 1)).map
    (fun i => String.join ((non_empate.drop i).take cycle_size))

/-- One iteration of the `for cycle_size in range(3, 7)` loop body of
`detect_hidden_cycles`. -/
def detect_hidden_cycles_for (non_empate : List String) (cycle_size : Nat) : List Pattern :=
  let cycles := cycle_windows non_empate cycle_size
  let repeated := (cycle_counts cycles).filter (fun x => decide (2 ≤ x.2))
  match max_by_count repeated with
  | none => []
  | some (most_repeated, count) =>
      [{ type := "hidden_cycle"
       , cycle_size := some cycle_size
       , pattern := some most_repeated
       , repetitions := some count
       , strength := min ((count : ℚ) / 3) 1
       , risk := if 3 ≤ count then "high" else "medium"
       , description := "Ciclo oculto detectado: \"" ++ most_repeated ++ "\" (" ++ toString count ++ "x)"
       , manipulation := if 3 ≤ count then "Sistema usando ciclo programado" else "Possível ciclo induzido"
       , predictability := 70 + (count : ℚ) * 5 }]

/-- Embeds `CasinoAnalyzer.detect_hidden_cycles`; the loop over
`range(3, 7)` is unrolled. -/
def detect_hidden_cycles (results : List String) : List Pattern :=
  if (nonEmpate results).length < 12 then []
  else
    detect_hidden_cycles_for (nonEmpate results) 3 ++
    detect_hidden_cycles_for (nonEmpate results) 4 ++
    detect_hidden_cycles_for (nonEmpate results) 5 ++
    detect_hidden_cycles_for (nonEmpate results) 6

/-- Source: `non_empate[-window_size:]`. -/
def comp_window (non_empate : List String) (window_size : Nat) : List String :=
  non_empate.drop (non_empate.length - window_size)

/-- Source: `abs(c_count - v_count)` for the last `window_size` non-tie outcomes. -/
def comp_imbalance (non_empate : List String) (window_size : Nat) : Nat :=
  (((comp_window non_empate window_size).count ("C") : ℤ) -
   ((comp_window non_empate window_size).count ("V") : ℤ)).natAbs

/-- Source: `balance_ratio = imbalance / window_size`. -/
def balance_ratio (non_empate : List String) (window_size : Nat) : ℚ :=
  (comp_imbalance non_empate window_size : ℚ) / (window_size : ℚ)

/-- One iteration of the `for window_size in windows` loop body of
`analyze_compensation_patterns` (including its `if n >= window_size`
guard). -/
def comp_patterns_for (non_empate : List String) (window_size : Nat) : List Pattern :=
  if non_empate.length < window_size then []
  else
    let c_count := (comp_window non_empate window_size).count ("C")
    let v_count := (comp_window non_empate window_size).count ("V")
    (if balance_ratio non_empate window_size < 1/10 ∧ 15 ≤ window_size then
        [{ type := "artificial_balance"
         , window_size := some window_size
         , balance := some (toString c_count ++ "C/" ++ toString v_count ++ "V")
         , strength := 1 - balance_ratio non_empate window_size
         , risk := "high"
         , description := "Equilíbrio artificial em " ++ toString window_size ++ " jogadas"
         , manipulation := "Sistema forçando distribuição 50/50"
         , predictability := 85 }]
      else []) ++
    (if 2/5 < balance_ratio non_empate window_size then
        [{ type := "compensation_pending"
         , window_size := some window_size
         , imbalance := some (comp_imbalance non_empate window_size)
         , favored_color := some (if c_count < v_count then "C" else "V")
         , strength := balance_ratio non_empate window_size
         , risk := "medium"
         , description := "Compensação pendente: " ++ toString c_count ++ "C vs " ++ toString v_count ++ "V"
         , manipulation := "Sistema deve favorecer " ++ (if c_count < v_count then "C" else "V")
         , predictability := 60 + balance_ratio non_empate window_size * 20 }]
      else [])

/-- Embeds `CasinoAnalyzer.analyze_compensation_patterns`; the loop over
`windows = [12, 15, 18]` is unrolled. -/
def analyze_compensation_patterns (results : List String) : List Pattern :=
  if (nonEmpate results).length < 20 then []
  else
    comp_patterns_for (nonEmpate results) 12 ++
    comp_patterns_for (nonEmpate results) 15 ++
    comp_patterns_for (nonEmpate results) 18

/-- A concrete 20-outcome all-"C" history, used as an instance for the
compensation detector below. -/
def all_player_history : List String := List.replicate 20 "C"

/-- The `compensation_pending` record that `analyze_compensation_patterns`
produces for window 12 on `all_player_history` (written with the same
subterms the detector builds). -/
def comp_pending_12 : Pattern :=
  { type := "compensation_pending"
  , window_size := some 12
  , imbalance := some (comp_imbalance (nonEmpate all_player_history) 12)
  , favored_color := some (if (comp_window (nonEmpate all_player_history) 12).count ("C") <
        (comp_window (nonEmpate all_player_history) 12).count ("V") then "C" else "V")
  , strength := balance_ratio (nonEmpate all_player_history) 12
  , risk := "medium"
  , description := "Compensação pendente: " ++
      toString ((comp_window (nonEmpate all_player_history) 12).count ("C")) ++ "C vs " ++
      toString ((comp_window (nonEmpate all_player_history) 12).count ("V")) ++ "V"
  , manipulation := "Sistema deve favorecer " ++
      (if (comp_window (nonEmpate all_player_history) 12).count ("C") <
        (comp_window (nonEmpate all_player_history) 12).count ("V") then "C" else "V")
  , predictability := 60 + balance_ratio (nonEmpate all_player_history) 12 * 20 }

/-- The nested helper `get_sequence_length` of `analyze_strategic_ties`:
length of the run of `seq[-1]` ending at the last element. -/
def get_sequence_length (seq : List String) : Nat :=
  match seq.getLast? with
  | none => 0
  | some color => 1 + (seq.dropLast.reverse.takeWhile (fun x => decide (x = color))).length

/-- One iteration of the `for tie_pos in tie_positions` loop body of
`analyze_strategic_ties` (including its `if tie_pos >= 3` guard). -/
def tie_patterns_at (results : List String) (tie_pos : Nat) : List Pattern :=
  if tie_pos < 3 then []
  else
    let before := (results.drop (tie_pos - 3)).take 3
    let after := (results.drop (tie_pos + 1)).take 3
    let b1 := before.getD (before.length - 1) ("")
    let b2 := before.getD (before.length - 2) ("")
    let a0 := after.getD 0 ("")
    (if 2 ≤ before.length ∧ b1 = b2 ∧ b1 ≠ "E" then
        [{ type := "strategic_tie_after_sequence"
         , position := some tie_pos
         , sequence_color := some b1
         , sequence_length := some (get_sequence_length before)
         , strength := 7/10
         , risk := "high"
         , description := "Empate estratégico após " ++ toString (get_sequence_length before) ++ "x " ++ b1
         , manipulation := "Empate usado para quebrar momentum"
         , predictability := 75 }]
      else []) ++
    (if 2 ≤ after.length ∧ 1 ≤ before.length ∧ b1 ≠ "E" ∧ a0 ≠ "E" ∧ b1 ≠ a0 then
        [{ type := "strategic_tie_before_reversal"
         , position := some tie_pos
         , from_color := some b1
         , to_color := some a0
         , strength := 8/10
         , risk := "high"
         , description := "Empate estratégico antes de reversão " ++ b1 ++ " → " ++ a0
         , manipulation := "Empate usado para mascarar mudança direcionada"
         , predictability := 80 }]
      else [])

/-- Embeds `CasinoAnalyzer.analyze_strategic_ties`; `tie_positions` is the list of
indices holding `'E'`. -/
def analyze_strategic_ties (results : List String) : List Pattern :=
  if results.length < 8 then []
  else
    (((List.range results.length).filter
        (fun i => decide (results.getD i ("") = "E"))).map
      (tie_patterns_at results)).flatten

/-- The score increment and factor text contributed by one pattern in the
`elif` chain of `assess_risk` (first matching rule wins; a pattern matching
no rule contributes nothing). -/
def risk_contrib (p : Pattern) : Nat × List String :=
  if p.type = "micro_double_pattern" ∧ (8/10 : ℚ) ≤ p.strength then
    (70, ["🚨 Padrão 2x2 crítico detectado"])
  else if p.type = "micro_alternation" ∧ (8/10 : ℚ) ≤ p.strength then
    (65, ["⚠️ Alternação artificial crítica"])
  else if p.type = "hidden_cycle" ∧ 3 ≤ p.repetitions.getD 0 then
    (60, ["🔄 Ciclo programado ativo (" ++ toString (p.repetitions.getD 0) ++ "x)"])
  else if p.type = "artificial_balance" then
    (55, ["⚖️ Equilíbrio artificial forçado"])
  else if p.type = "intentional_break" then
    (50, ["💥 Quebra intencional detectada"])
  else if (p.type).startsWith ("strategic_tie") then
    (40, ["🔶 Empate estratégico detectado"])
  else (0, [])

/-- Embeds `CasinoAnalyzer.assess_risk`: the loop accumulates `risk_score` and
`risk_factors`; the level thresholds read the unclamped total, the stored
score is `min(risk_score, 100)`. -/
def assess_risk (patterns : List Pattern) : Risk :=
  let risk_score := (patterns.map (fun p => (risk_contrib p).1)).sum
  let risk_factors := (patterns.map (fun p => (risk_contrib p).2)).flatten
  { level :=
      if 80 ≤ risk_score then "critical"
      else if 55 ≤ risk_score then "high"
      else if 30 ≤ risk_score then "medium"
      else "low"
  , score := min risk_score 100
  , factors := risk_factors }

/-- The score increment contributed by one pattern in
`detect_manipulation` (keyed on `pattern.get('predictability', 0)`). -/
def manip_contrib (p : Pattern) : Nat :=
  if (90 : ℚ) ≤ p.predictability then 80
  else if (80 : ℚ) ≤ p.predictability then 60
  else if (70 : ℚ) ≤ p.predictability then 40
  else 0

/-- The sign text contributed by one pattern in `detect_manipulation`. -/
def manip_sign (p : Pattern) : List String :=
  if (90 : ℚ) ≤ p.predictability then
    ["🤖 Padrão altamente artificial: " ++ p.description]
  else if (80 : ℚ) ≤ p.predictability then
    ["🎯 Padrão programado: " ++ p.description]
  else if (70 : ℚ) ≤ p.predictability then
    ["⚙️ Padrão suspeito: " ++ p.description]
  else []

/-- Embeds `CasinoAnalyzer.detect_manipulation`.  The `risk` argument is accepted
but unused, exactly as in the source. -/
def detect_manipulation (patterns : List Pattern) (risk : Risk) : Manipulation :=
  let manipulation_score := (patterns.map manip_contrib).sum
  let manipulation_signs := (patterns.map manip_sign).flatten
  { level :=
      if 80 ≤ manipulation_score then "critical"
      else if 60 ≤ manipulation_score then "high"
      else if 35 ≤ manipulation_score then "medium"
      else "low"
  , score := min manipulation_score 100
  , signs := manipulation_signs }

/-- The initial `prediction` dict of `make_prediction`. -/
def base_prediction : Prediction :=
  { color := none
  , confidence := 0
  , reasoning := ""
  , strategy := "AGUARDAR MELHORES CONDIÇÕES" }

/-- Embeds `CasinoAnalyzer.predict_next_in_cycle`.  The source's scan loop over
`non_empate` only `break`s on a mismatch and binds nothing, so it has no
effect on the returned value and is not reproduced; the final
`pattern[pos] if pos < cycle_len else None` is realized by `List.get?`,
which is `none` exactly when `pos` is out of range. -/
def predict_next_in_cycle (results : List String) (pattern : String) : Option String :=
  if pattern = "" ∨ nonEmpate results = [] then none
  else
    let cycle_len := pattern.length
    let pos := (nonEmpate results).length % cycle_len
    (pattern.data.get? pos).map (fun c => String.singleton c)

/-- Branch 5 (fallback) of `make_prediction`: bet on the historically most
frequent non-tie outcome; `Counter.most_common(1)` resolves count ties in
favor of the first-encountered element. -/
def prediction_fallback (results : List String) : Prediction :=
  match max_by_count (cycle_counts (nonEmpate results)) with
  | none => base_prediction
  | some (most_common_color, count) =>
      { color := some most_common_color
      , confidence := min (((count : ℚ) / ((nonEmpate results).length : ℚ)) * 100) 75
      , reasoning := "Aposta baseada em frequência histórica de \"" ++ most_common_color ++
          "\" (" ++ toString count ++ "/" ++ toString (nonEmpate results).length ++ ")"
      , strategy := "APOSTAR NA PRINCIPAL COR" }

/-- Branch 4 of `make_prediction` (hidden-cycle continuation), falling
through to the fallback branch when it does not fire. -/
def prediction_cycle_step (results : List String) (patterns : List Pattern)
    (risk : Risk) (manipulation : Manipulation) : Prediction :=
  match patterns.find? (fun p => decide (p.type = "hidden_cycle" ∧ 2 ≤ p.repetitions.getD 0)) with
  | some cycle_pattern =>
      if risk.level = "low" ∧ manipulation.level = "low" then
        match predict_next_in_cycle results (cycle_pattern.pattern.getD ("")) with
        | some next_color =>
            { color := some next_color
            , confidence := min 70 (50 + (cycle_pattern.repetitions.getD 0 : ℚ) * 5)
            , reasoning := "Ciclo detectado: \"" ++ cycle_pattern.pattern.getD ("") ++
                "\" (" ++ toString (cycle_pattern.repetitions.getD 0) ++ "x)"
            , strategy := "SEGUIR CICLO" }
        | none => prediction_fallback results
      else prediction_fallback results
  | none => prediction_fallback results

/-- Branch 3 of `make_prediction` (pending compensation), falling through
to branch 4 when it does not fire. -/
def prediction_comp_step (results : List String) (patterns : List Pattern)
    (risk : Risk) (manipulation : Manipulation) : Prediction :=
  match patterns.find? (fun p => decide (p.type = "compensation_pending")) with
  | some compensation_pattern =>
      if risk.level = "low" ∧ manipulation.level = "low" then
        { color := some (compensation_pattern.favored_color.getD (""))
        , confidence := min 75 (55 + compensation_pattern.strength * 20)
        , reasoning := "Compensação estatística esperada: " ++ compensation_pattern.description
        , strategy := "APOSTAR COMPENSAÇÃO" }
      else prediction_cycle_step results patterns risk manipulation
  | none => prediction_cycle_step results patterns risk manipulation

/-- Embeds `CasinoAnalyzer.make_prediction`: the priority-ordered decision chain. -/
def make_prediction (results : List String) (patterns : List Pattern)
    (risk : Risk) (manipulation : Manipulation) : Prediction :=
  if risk.level = "critical" ∨ manipulation.level = "critical" then
    { base_prediction with
        reasoning := "🚨 CONDIÇÕES CRÍTICAS - Manipulação máxima detectada"
      , strategy := "PARAR COMPLETAMENTE" }
  else if manipulation.level = "high" then
    { base_prediction with
        reasoning := "⛔ Manipulação alta - Evitar apostas"
      , strategy := "AGUARDAR NORMALIZAÇÃO" }
  else prediction_comp_step results patterns risk manipulation

/-- The concatenated pattern list exactly as `main()` builds it:
micro-patterns, then hidden cycles, then compensation, then strategic
ties. -/
def all_patterns (history : List String) : List Pattern :=
  analyze_micro_patterns history ++ detect_hidden_cycles history ++
  analyze_compensation_patterns history ++ analyze_strategic_ties history

/-- The full result structure of one analysis call. -/
structure AnalysisResult where
  patterns : List Pattern
  risk : Risk
  manipulation : Manipulation
  prediction : Prediction
deriving DecidableEq

/-- One full engine invocation on a history snapshot, composing the four
detectors, the two scorers and the predictor exactly as `main()` does. -/
def analyze (history : List String) : AnalysisResult :=
  let patterns := all_patterns history
  let risk := assess_risk patterns
  let manipulation := detect_manipulation patterns risk
  { patterns := patterns
  , risk := risk
  , manipulation := manipulation
  , prediction := make_prediction history patterns risk manipulation }

/-! ## Helper lemmas -/

/-- Branch 1 of `make_prediction` in full: a critical risk or manipulation
level yields the stop record. -/
lemma make_prediction_critical (results : List String) (patterns : List Pattern)
    (risk : Risk) (manipulation : Manipulation)
    (h : risk.level = "critical" ∨ manipulation.level = "critical") :
    make_prediction results patterns risk manipulation =
      { base_prediction with
          reasoning := "🚨 CONDIÇÕES CRÍTICAS - Manipulação máxima detectada"
        , strategy := "PARAR COMPLETAMENTE" } := by
  unfold make_prediction
  rw [if_pos h]

/-- When risk and manipulation are both `low` and no pattern can fire
branch 3 or branch 4, `make_prediction` reaches the fallback branch. -/
lemma make_prediction_low_fallback (results : List String) (patterns : List Pattern)
    (risk : Risk) (manipulation : Manipulation)
    (hr : risk.level = "low") (hm : manipulation.level = "low")
    (hnc : ∀ p ∈ patterns, ¬(p.type = "compensation_pending"))
    (hcy : ∀ p ∈ patterns, ¬(p.type = "hidden_cycle" ∧ 2 ≤ p.repetitions.getD 0)) :
    make_prediction results patterns risk manipulation = prediction_fallback results := by
  have hA : ¬(risk.level = "critical" ∨ manipulation.level = "critical") := by
    rw [hr, hm]; decide
  have hB : ¬(manipulation.level = "high") := by rw [hm]; decide
  have h1 : patterns.find? (fun p => decide (p.type = "compensation_pending")) = none := by
    rw [List.find?_eq_none]
    intro p hp
    simpa using hnc p hp
  have h2 : patterns.find?
      (fun p => decide (p.type = "hidden_cycle" ∧ 2 ≤ p.repetitions.getD 0)) = none := by
    rw [List.find?_eq_none]
    intro p hp
    simpa using hcy p hp
  unfold make_prediction
  rw [if_neg hA, if_neg hB]
  unfold prediction_comp_step
  rw [h1]
  unfold prediction_cycle_step
  rw [h2]

/-! ## Claims -/

/-- C2 (counterexample): on the history
`["C","C","V","V","E","C","C","V","V","C","V","V"]` the last 6 outcomes are
not the `["C","C","V","V","C","V"]` asserted by the claim, and
`MicroPatternDetector` emits no `micro_double_pattern` at all. -/
theorem micro_double_scenario_counterexample :
    last6 ["C","C","V","V","E","C","C","V","V","C","V","V"] ≠ ["C","C","V","V","C","V"] ∧
    (analyze_micro_patterns ["C","C","V","V","E","C","C","V","V","C","V","V"]).filter
      (fun p => decide (p.type = "micro_double_pattern")) = [] := by
  decide

/-- C2 (amended): on the history
`["C","C","V","V","E","C","C","V","V","C","V","V"]` the last 6 outcomes are
`["C","V","V","C","V","V"]`, which contain exactly one equal-non-tie
consecutive pair at offsets (4,5), so `double_pattern_count = 1 < 2` and
`MicroPatternDetector` emits no pattern for this history. -/
theorem micro_double_scenario_actual :
    last6 ["C","C","V","V","E","C","C","V","V","C","V","V"] = ["C","V","V","C","V","V"] ∧
    double_pattern_count ["C","C","V","V","E","C","C","V","V","C","V","V"] = 1 ∧
    analyze_micro_patterns ["C","C","V","V","E","C","C","V","V","C","V","V"] = [] := by
  decide

/-- C5: whenever the risk level or the manipulation level is `critical`,
`make_prediction` returns no color, confidence 0 and the strategy
`PARAR COMPLETAMENTE`, for every history and every pattern list. -/
theorem critical_stops_completely (results : List String) (patterns : List Pattern)
    (risk : Risk) (manipulation : Manipulation)
    (h : risk.level = "critical" ∨ manipulation.level = "critical") :
    (make_prediction results patterns risk manipulation).color = none ∧
    (make_prediction results patterns risk manipulation).confidence = 0 ∧
    (make_prediction results patterns risk manipulation).strategy = "PARAR COMPLETAMENTE" := by
  rw [make_prediction_critical results patterns risk manipulation h]
  exact ⟨rfl, rfl, rfl⟩

/-- Witness for C5: a critical risk assessment forces the stop strategy
even with a `compensation_pending` and a `hidden_cycle` pattern present. -/
theorem critical_stops_completely_witness :
    (make_prediction ["C","V","C"]
      [{ type := "compensation_pending", strength := 1, risk := "medium"
       , description := "", manipulation := "", predictability := 80
       , favored_color := some ("V") },
       { type := "hidden_cycle", strength := 1, risk := "high"
       , description := "", manipulation := "", predictability := 85
       , pattern := some ("CV"), repetitions := some 3 }]
      ⟨"critical", 100, []⟩ ⟨"low", 0, []⟩).color = none ∧
    (make_prediction ["C","V","C"]
      [{ type := "compensation_pending", strength := 1, risk := "medium"
       , description := "", manipulation := "", predictability := 80
       , favored_color := some ("V") },
       { type := "hidden_cycle", strength := 1, risk := "high"
       , description := "", manipulation := "", predictability := 85
       , pattern := some ("CV"), repetitions := some 3 }]
      ⟨"critical", 100, []⟩ ⟨"low", 0, []⟩).confidence = 0 ∧
    (make_prediction ["C","V","C"]
      [{ type := "compensation_pending", strength := 1, risk := "medium"
       , description := "", manipulation := "", predictability := 80
       , favored_color := some ("V") },
       { type := "hidden_cycle", strength := 1, risk := "high"
       , description := "", manipulation := "", predictability := 85
       , pattern := some ("CV"), repetitions := some 3 }]
      ⟨"critical", 100, []⟩ ⟨"low", 0, []⟩).strategy = "PARAR COMPLETAMENTE" :=
  critical_stops_completely _ _ _ _ (Or.inl rfl)

/-- C7: each detector degrades to the empty pattern list below its
minimum length: `analyze_micro_patterns` under 6 outcomes,
`detect_hidden_cycles` under 12 non-tie outcomes,
`analyze_compensation_patterns` under 20 non-tie outcomes and
`analyze_strategic_ties` under 8 outcomes; all are total functions, so no
error is signalled. -/
theorem min_length_no_patterns (results : List String) :
    (results.length < 6 → analyze_micro_patterns results = []) ∧
    ((nonEmpate results).length < 12 → detect_hidden_cycles results = []) ∧
    ((nonEmpate results).length < 20 → analyze_compensation_patterns results = []) ∧
    (results.length < 8 → analyze_strategic_ties results = []) := by
  refine ⟨fun h => ?_, fun h => ?_, fun h => ?_, fun h => ?_⟩
  · unfold analyze_micro_patterns; rw [if_pos h]
  · unfold detect_hidden_cycles; rw [if_pos h]
  · unfold analyze_compensation_patterns; rw [if_pos h]
  · unfold analyze_strategic_ties; rw [if_pos h]

/-- Witness for C7 at the one-outcome history `["C"]`. -/
theorem min_length_no_patterns_witness :
    analyze_micro_patterns ["C"] = [] ∧ detect_hidden_cycles ["C"] = [] ∧
    analyze_compensation_patterns ["C"] = [] ∧ analyze_strategic_ties ["C"] = [] :=
  ⟨(min_length_no_patterns ["C"]).1 (by decide),
   (min_length_no_patterns ["C"]).2.1 (by decide),
   (min_length_no_patterns ["C"]).2.2.1 (by decide),
   (min_length_no_patterns ["C"]).2.2.2 (by decide)⟩

/-- C8: for every pattern list the risk score and the manipulation score
lie in [0,100], and on the empty pattern list both scorers return score 0,
level `low` and an empty factors/signs sequence. -/
theorem scores_clamped (patterns : List Pattern) (risk : Risk) :
    0 ≤ (assess_risk patterns).score ∧ (assess_risk patterns).score ≤ 100 ∧
    0 ≤ (detect_manipulation patterns risk).score ∧
    (detect_manipulation patterns risk).score ≤ 100 ∧
    assess_risk [] = ⟨"low", 0, []⟩ ∧
    detect_manipulation [] risk = ⟨"low", 0, []⟩ := by
  refine ⟨Nat.zero_le _, ?_, Nat.zero_le _, ?_, rfl, rfl⟩
  · exact Nat.min_le_right _ _
  · exact Nat.min_le_right _ _

/-- C9 (counterexample): the structurally invalid history of six `"X"`
values (outside the alphabet `{C, V, E}`) is not rejected: the engine
analyzes it in full, emitting a `micro_double_pattern` and the strategy
`AGUARDAR NORMALIZAÇÃO`; no `InvalidOutcomeError` exists anywhere in the
engine. -/
theorem invalid_input_analyzed_counterexample :
    (analyze ["X","X","X","X","X","X"]).patterns.map (fun p => p.type) =
      ["micro_double_pattern"] ∧
    (analyze ["X","X","X","X","X","X"]).prediction.strategy = "AGUARDAR NORMALIZAÇÃO" := by
  have hpat : all_patterns ["X","X","X","X","X","X"] = [microDoubleRecord 3] := rfl
  have hcond : (microDoubleRecord 3).type = "micro_double_pattern" ∧
      (8/10 : ℚ) ≤ (microDoubleRecord 3).strength :=
    ⟨rfl, by norm_num [microDoubleRecord]⟩
  have hrc : risk_contrib (microDoubleRecord 3) = (70, ["🚨 Padrão 2x2 crítico detectado"]) := by
    unfold risk_contrib
    rw [if_pos hcond]
  have hrisk : assess_risk [microDoubleRecord 3] =
      ⟨"high", 70, ["🚨 Padrão 2x2 crítico detectado"]⟩ := by
    unfold assess_risk
    simp [hrc]
  have hmanip : detect_manipulation [microDoubleRecord 3]
      (assess_risk [microDoubleRecord 3]) =
      ⟨"high", 60, ["🎯 Padrão programado: " ++ (microDoubleRecord 3).description]⟩ := by
    decide
  refine ⟨rfl, ?_⟩
  have hpred : (analyze ["X","X","X","X","X","X"]).prediction =
      make_prediction ["X","X","X","X","X","X"] (all_patterns ["X","X","X","X","X","X"])
        (assess_risk (all_patterns ["X","X","X","X","X","X"]))
        (detect_manipulation (all_patterns ["X","X","X","X","X","X"])
          (assess_risk (all_patterns ["X","X","X","X","X","X"]))) := rfl
  rw [hpred, hpat, hmanip, hrisk]
  unfold make_prediction
  rw [if_neg (by decide), if_pos (by decide)]

/-- C9 (amended): `analyze` has exactly one observable outcome on every
input sequence — the full result structure of the detector/scorer/predictor
pipeline; a value outside the three-symbol alphabet is never rejected but
retained in the non-tie sequence and analyzed as an ordinary non-tie
outcome. -/
theorem analyze_total_on_any_alphabet (history : List String) (s : String)
    (hs : s ≠ "E") (hmem : s ∈ history) :
    s ∈ nonEmpate history ∧
    analyze history =
      ⟨all_patterns history, assess_risk (all_patterns history),
       detect_manipulation (all_patterns history) (assess_risk (all_patterns history)),
       make_prediction history (all_patterns history) (assess_risk (all_patterns history))
         (detect_manipulation (all_patterns history) (assess_risk (all_patterns history)))⟩ := by
  constructor
  · exact List.mem_filter.2 ⟨hmem, decide_eq_true hs⟩
  · rfl

/-- Witness for C9 (amended) at the invalid history of six `"X"`. -/
theorem analyze_total_on_any_alphabet_witness :
    ("X" : String) ∈ nonEmpate ["X","X","X","X","X","X"] ∧
    analyze ["X","X","X","X","X","X"] =
      ⟨all_patterns ["X","X","X","X","X","X"],
       assess_risk (all_patterns ["X","X","X","X","X","X"]),
       detect_manipulation (all_patterns ["X","X","X","X","X","X"])
         (assess_risk (all_patterns ["X","X","X","X","X","X"])),
       make_prediction ["X","X","X","X","X","X"] (all_patterns ["X","X","X","X","X","X"])
         (assess_risk (all_patterns ["X","X","X","X","X","X"]))
         (detect_manipulation (all_patterns ["X","X","X","X","X","X"])
           (assess_risk (all_patterns ["X","X","X","X","X","X"])))⟩ :=
  analyze_total_on_any_alphabet ["X","X","X","X","X","X"] "X" (by decide) (by decide)

/-- C3 (counterexample): the histories `["C","C","C","C","V"]` (dominant
share 4/5) and `["C","C","C","C","C"]` (dominant share 1) both reach the
fallback branch, the second share is strictly larger, yet both confidences
are 75 (the cap): confidence is not strictly increasing in the dominant
share. -/
theorem fallback_confidence_not_strict_counterexample :
    (analyze ["C","C","C","C","V"]).prediction.strategy = "APOSTAR NA PRINCIPAL COR" ∧
    (analyze ["C","C","C","C","C"]).prediction.strategy = "APOSTAR NA PRINCIPAL COR" ∧
    max_by_count (cycle_counts (nonEmpate ["C","C","C","C","V"])) = some ("C", 4) ∧
    (nonEmpate ["C","C","C","C","V"]).length = 5 ∧
    max_by_count (cycle_counts (nonEmpate ["C","C","C","C","C"])) = some ("C", 5) ∧
    (nonEmpate ["C","C","C","C","C"]).length = 5 ∧
    ((4 : ℚ)/5 < (5 : ℚ)/5) ∧
    (analyze ["C","C","C","C","V"]).prediction.confidence =
      (analyze ["C","C","C","C","C"]).prediction.confidence := by
  refine ⟨rfl, rfl, by decide, rfl, by decide, rfl, by norm_num, ?_⟩
  have h1 : (analyze ["C","C","C","C","V"]).prediction.confidence =
      min ((((4 : ℕ) : ℚ) / ((5 : ℕ) : ℚ)) * 100) 75 := rfl
  have h2 : (analyze ["C","C","C","C","C"]).prediction.confidence =
      min ((((5 : ℕ) : ℚ) / ((5 : ℕ) : ℚ)) * 100) 75 := rfl
  rw [h1, h2]
  norm_num

/-- C3 (amended): in the fallback branch the returned confidence
`min(share*100, 75)` is monotone (non-decreasing) in the dominant share,
and strictly increasing as long as the smaller share is below 3/4 — i.e.
while the confidence is under the cap of 75; at and above share 3/4 it is
constant at 75. -/
theorem fallback_confidence_monotone
    (r1 r2 : List String) (ps1 ps2 : List Pattern) (k1 k2 : Risk) (m1 m2 : Manipulation)
    (c1 c2 : String) (n1 n2 : Nat)
    (hr1 : k1.level = "low") (hm1 : m1.level = "low")
    (hr2 : k2.level = "low") (hm2 : m2.level = "low")
    (hnc1 : ∀ p ∈ ps1, ¬(p.type = "compensation_pending"))
    (hcy1 : ∀ p ∈ ps1, ¬(p.type = "hidden_cycle" ∧ 2 ≤ p.repetitions.getD 0))
    (hnc2 : ∀ p ∈ ps2, ¬(p.type = "compensation_pending"))
    (hcy2 : ∀ p ∈ ps2, ¬(p.type = "hidden_cycle" ∧ 2 ≤ p.repetitions.getD 0))
    (hd1 : max_by_count (cycle_counts (nonEmpate r1)) = some (c1, n1))
    (hd2 : max_by_count (cycle_counts (nonEmpate r2)) = some (c2, n2))
    (hshare : (n1 : ℚ) / ((nonEmpate r1).length : ℚ) <
              (n2 : ℚ) / ((nonEmpate r2).length : ℚ)) :
    (make_prediction r1 ps1 k1 m1).confidence ≤ (make_prediction r2 ps2 k2 m2).confidence ∧
    ((n1 : ℚ) / ((nonEmpate r1).length : ℚ) < 3/4 →
      (make_prediction r1 ps1 k1 m1).confidence < (make_prediction r2 ps2 k2 m2).confidence) := by
  rw [make_prediction_low_fallback r1 ps1 k1 m1 hr1 hm1 hnc1 hcy1,
      make_prediction_low_fallback r2 ps2 k2 m2 hr2 hm2 hnc2 hcy2]
  unfold prediction_fallback
  rw [hd1, hd2]
  simp only
  constructor
  · exact min_le_min (mul_le_mul_of_nonneg_right hshare.le (by norm_num)) (le_refl 75)
  · intro h34
    have hlt75 : (n1 : ℚ) / ((nonEmpate r1).length : ℚ) * 100 < 75 := by
      have := mul_lt_mul_of_pos_right h34 (show (0:ℚ) < 100 by norm_num)
      linarith
    rw [min_eq_left hlt75.le]
    exact lt_min (mul_lt_mul_of_pos_right hshare (by norm_num)) hlt75

/-- Witness for C3 (amended): shares 2/3 < 1 on `["C","C","V"]` versus
`["C","C","C"]` give strictly increasing confidences. -/
theorem fallback_confidence_monotone_witness :
    (make_prediction ["C","C","V"] [] (assess_risk [])
       (detect_manipulation [] (assess_risk []))).confidence <
    (make_prediction ["C","C","C"] [] (assess_risk [])
       (detect_manipulation [] (assess_risk []))).confidence :=
  (fallback_confidence_monotone ["C","C","V"] ["C","C","C"] [] []
      (assess_risk []) (assess_risk [])
      (detect_manipulation [] (assess_risk [])) (detect_manipulation [] (assess_risk []))
      "C" "C" 2 3 rfl rfl rfl rfl
      (by simp) (by simp) (by simp) (by simp)
      (by decide) (by decide)
      (by rw [show (nonEmpate ["C","C","V"]).length = 3 from rfl,
              show (nonEmpate ["C","C","C"]).length = 3 from rfl]
          norm_num)).2
    (by rw [show (nonEmpate ["C","C","V"]).length = 3 from rfl]
        norm_num)

/-- C1 (counterexample): on the history
`["C","C","C","V","C","V","C","V"]` the tie-filtered last-8 suffix has 8
elements, its LAST 6 elements have 5 differing adjacent pairs (≥ 4), yet
`MicroPatternDetector` emits nothing: the code does not count over the
last 6 of the suffix. -/
theorem micro_alternation_last6_counterexample :
    6 ≤ (last8_non_empate ["C","C","C","V","C","V","C","V"]).length ∧
    4 ≤ adjacent_diff_count ((last8_non_empate ["C","C","C","V","C","V","C","V"]).drop
        ((last8_non_empate ["C","C","C","V","C","V","C","V"]).length - 6)) ∧
    analyze_micro_patterns ["C","C","C","V","C","V","C","V"] = [] := by
  decide

/-- C1 (amended): when the tie-filtered last-8 suffix has at least 6
elements, the micro-alternation count equals the differing-adjacent-pair
count of the FIRST 6 elements of that suffix (comparisons at indices
1..5), and a `micro_alternation` pattern — with strength count/5, risk
`critical` iff count = 5 else `high`, predictability 90 — is emitted
exactly when that count is ≥ 4. -/
theorem micro_alternation_first_six (results : List String)
    (h6 : 6 ≤ (last8_non_empate results).length) :
    micro_alternations results = adjacent_diff_count ((last8_non_empate results).take 6) ∧
    (analyze_micro_patterns results).filter (fun p => decide (p.type = "micro_alternation")) =
      (if 4 ≤ micro_alternations results then
        [microAlternationRecord (micro_alternations results)] else []) := by
  constructor
  · unfold micro_alternations adjacent_diff_count
    have hmin : min 6 (last8_non_empate results).length = 6 := min_eq_left h6
    have hlen : ((last8_non_empate results).take 6).length = 6 := by
      rw [List.length_take]
      exact hmin
    rw [hmin, hlen]
    refine List.countP_congr (fun i hi => ?_)
    have hi6 : 1 ≤ i ∧ i < 6 := by simpa using List.mem_range'_1.1 hi
    have hg : ∀ j, j < 6 →
        ((last8_non_empate results).take 6).getD j ("") =
          (last8_non_empate results).getD j ("") := by
      intro j hj
      rw [List.getD_eq_getElem?_getD, List.getD_eq_getElem?_getD, List.getElem?_take,
        if_pos hj]
    rw [hg i hi6.2, hg (i-1) (by omega)]
  · have hlen : ¬(results.length < 6) := by
      have h1 : (last8_non_empate results).length ≤ (nonEmpate results).length := by
        unfold last8_non_empate
        rw [List.length_drop]
        omega
      have h2 : (nonEmpate results).length ≤ results.length :=
        List.length_filter_le _ _
      omega
    unfold analyze_micro_patterns
    rw [if_neg hlen, if_pos h6, List.filter_append]
    have hd : (if 2 ≤ double_pattern_count results then
        [microDoubleRecord (double_pattern_count results)] else []).filter
          (fun p => decide (p.type = "micro_alternation")) = [] := by
      split
      · simp [microDoubleRecord]
      · rfl
    have ha : (if 4 ≤ micro_alternations results then
        [microAlternationRecord (micro_alternations results)] else []).filter
          (fun p => decide (p.type = "micro_alternation")) =
        (if 4 ≤ micro_alternations results then
          [microAlternationRecord (micro_alternations results)] else []) := by
      split
      · simp [microAlternationRecord]
      · rfl
    rw [hd, ha, List.nil_append]

/-- Witness for C1 (amended) at the alternating history
`["C","V","C","V","C","V"]` (count 5, pattern emitted). -/
theorem micro_alternation_first_six_witness :
    micro_alternations ["C","V","C","V","C","V"] =
      adjacent_diff_count ((last8_non_empate ["C","V","C","V","C","V"]).take 6) ∧
    (analyze_micro_patterns ["C","V","C","V","C","V"]).filter
        (fun p => decide (p.type = "micro_alternation")) =
      (if 4 ≤ micro_alternations ["C","V","C","V","C","V"] then
        [microAlternationRecord (micro_alternations ["C","V","C","V","C","V"])] else []) :=
  micro_alternation_first_six ["C","V","C","V","C","V"] (by decide)

/-- C10 (implicit): whenever `MicroPatternDetector` emits a
`micro_alternation` pattern (predictability 90), the manipulation score of
the full analysis is at least 80, its level is `critical`, and the final
prediction is the stop branch: no color, confidence 0, strategy
`PARAR COMPLETAMENTE`. -/
theorem micro_alternation_forces_stop (history : List String) (p : Pattern)
    (hp : p ∈ analyze_micro_patterns history) (ht : p.type = "micro_alternation") :
    80 ≤ (analyze history).manipulation.score ∧
    (analyze history).manipulation.level = "critical" ∧
    (analyze history).prediction.color = none ∧
    (analyze history).prediction.confidence = 0 ∧
    (analyze history).prediction.strategy = "PARAR COMPLETAMENTE" := by
  have h90 : p.predictability = 90 := by
    unfold analyze_micro_patterns at hp
    by_cases h6 : history.length < 6
    · rw [if_pos h6] at hp
      cases hp
    · rw [if_neg h6] at hp
      rcases List.mem_append.1 hp with h | h
      · split at h
        · rw [List.mem_singleton.1 h] at ht
          simp [microDoubleRecord] at ht
        · cases h
      · split at h
        · split at h
          · rw [List.mem_singleton.1 h]
            rfl
          · cases h
        · cases h
  have hmem : p ∈ all_patterns history :=
    List.mem_append.2 (Or.inl (List.mem_append.2 (Or.inl (List.mem_append.2 (Or.inl hp)))))
  have hcontrib : manip_contrib p = 80 := by
    unfold manip_contrib
    rw [h90, if_pos (by norm_num : (90:ℚ) ≤ 90)]
  have hsum : 80 ≤ ((all_patterns history).map manip_contrib).sum := by
    have hin : manip_contrib p ∈ (all_patterns history).map manip_contrib :=
      List.mem_map_of_mem _ hmem
    have := List.single_le_sum (fun x _ => Nat.zero_le x) _ hin
    omega
  have hscore : (analyze history).manipulation.score =
      min ((all_patterns history).map manip_contrib).sum 100 := rfl
  have hlevel : (detect_manipulation (all_patterns history)
      (assess_risk (all_patterns history))).level = "critical" := by
    have he : (detect_manipulation (all_patterns history)
        (assess_risk (all_patterns history))).level =
        (if 80 ≤ ((all_patterns history).map manip_contrib).sum then "critical"
         else if 60 ≤ ((all_patterns history).map manip_contrib).sum then "high"
         else if 35 ≤ ((all_patterns history).map manip_contrib).sum then "medium"
         else "low") := rfl
    rw [he, if_pos hsum]
  refine ⟨by rw [hscore]; exact le_min hsum (by norm_num), hlevel, ?_, ?_, ?_⟩ <;>
  · have hpred : (analyze history).prediction =
        make_prediction history (all_patterns history)
          (assess_risk (all_patterns history))
          (detect_manipulation (all_patterns history)
            (assess_risk (all_patterns history))) := rfl
    rw [hpred, make_prediction_critical _ _ _ _ (Or.inr hlevel)]
    try rfl

/-- Witness for C10 at the alternating history `["C","V","C","V","C","V"]`. -/
theorem micro_alternation_forces_stop_witness :
    80 ≤ (analyze ["C","V","C","V","C","V"]).manipulation.score ∧
    (analyze ["C","V","C","V","C","V"]).manipulation.level = "critical" ∧
    (analyze ["C","V","C","V","C","V"]).prediction.color = none ∧
    (analyze ["C","V","C","V","C","V"]).prediction.confidence = 0 ∧
    (analyze ["C","V","C","V","C","V"]).prediction.strategy = "PARAR COMPLETAMENTE" :=
  micro_alternation_forces_stop ["C","V","C","V","C","V"]
    (microAlternationRecord (micro_alternations ["C","V","C","V","C","V"]))
    (List.Mem.head _) rfl

/-- C4: for a non-empty cycle string and a history with a non-empty
non-tie subsequence, `predict_next_in_cycle` always returns
`pattern[len(non_tie) mod L]` (a mismatch while scanning never aborts the
prediction — the result holds for every history, matching or not), so when
branch 4 of `make_prediction` is reached (risk and manipulation `low`, no
`compensation_pending` pattern, a `hidden_cycle` pattern with at least 2
repetitions found) a `SEGUIR CICLO` (FOLLOW CYCLE) prediction with
confidence `min(70, 50 + 5*repetitions)` is always produced. -/
theorem cycle_follow_prediction (results : List String) (patterns : List Pattern)
    (risk : Risk) (manip : Manipulation) (cp : Pattern) (ps : String)
    (hfind : patterns.find?
        (fun p => decide (p.type = "hidden_cycle" ∧ 2 ≤ p.repetitions.getD 0)) = some cp)
    (hps : cp.pattern = some ps)
    (hlen : 0 < ps.length)
    (hne : nonEmpate results ≠ [])
    (hr : risk.level = "low") (hm : manip.level = "low")
    (hnc : ∀ p ∈ patterns, ¬(p.type = "compensation_pending")) :
    predict_next_in_cycle results ps =
      some (String.singleton (ps.data.getD ((nonEmpate results).length % ps.length) 'E')) ∧
    (make_prediction results patterns risk manip).strategy = "SEGUIR CICLO" ∧
    (make_prediction results patterns risk manip).color =
      some (String.singleton (ps.data.getD ((nonEmpate results).length % ps.length) 'E')) ∧
    (make_prediction results patterns risk manip).confidence =
      min 70 (50 + (cp.repetitions.getD 0 : ℚ) * 5) := by
  have hguard : ¬(ps = "" ∨ nonEmpate results = []) := by
    rintro (h | h)
    · rw [h] at hlen
      exact absurd hlen (by decide)
    · exact hne h
  have hpos : (nonEmpate results).length % ps.length < ps.data.length :=
    Nat.mod_lt _ hlen
  have hget : ps.data.get? ((nonEmpate results).length % ps.length) =
      some (ps.data.getD ((nonEmpate results).length % ps.length) 'E') := by
    rw [List.getD_eq_getElem?_getD, ← List.get?_eq_getElem?, List.get?_eq_get hpos]
    rfl
  have hA : predict_next_in_cycle results ps =
      some (String.singleton (ps.data.getD ((nonEmpate results).length % ps.length) 'E')) := by
    unfold predict_next_in_cycle
    rw [if_neg hguard]
    simp only
    rw [hget]
    rfl
  refine ⟨hA, ?_⟩
  have hcrit : ¬(risk.level = "critical" ∨ manip.level = "critical") := by
    rw [hr, hm]
    decide
  have hhigh : ¬(manip.level = "high") := by
    rw [hm]
    decide
  have hcomp : patterns.find? (fun p => decide (p.type = "compensation_pending")) = none :=
    List.find?_eq_none.2 (fun x hx => by simpa using hnc x hx)
  have hB : make_prediction results patterns risk manip =
      { color := some (String.singleton
          (ps.data.getD ((nonEmpate results).length % ps.length) 'E'))
      , confidence := min 70 (50 + (cp.repetitions.getD 0 : ℚ) * 5)
      , reasoning := "Ciclo detectado: \"" ++ cp.pattern.getD ("") ++
          "\" (" ++ toString (cp.repetitions.getD 0) ++ "x)"
      , strategy := "SEGUIR CICLO" } := by
    unfold make_prediction
    rw [if_neg hcrit, if_neg hhigh]
    unfold prediction_comp_step
    rw [hcomp]
    unfold prediction_cycle_step
    rw [hfind]
    simp only
    rw [if_pos ⟨hr, hm⟩, hps]
    simp only [Option.getD_some]
    rw [hA]
  rw [hB]
  exact ⟨rfl, rfl, rfl⟩

/-- Witness for C4: history `["C","V","C"]`, cycle string `"CV"` with 2
repetitions, low risk and manipulation: the prediction follows the cycle
with color `"V"` and confidence 60. -/
theorem cycle_follow_prediction_witness :
    predict_next_in_cycle ["C","V","C"] "CV" =
      some (String.singleton ((("CV" : String)).data.getD
        ((nonEmpate ["C","V","C"]).length % ("CV" : String).length) 'E')) ∧
    (make_prediction ["C","V","C"]
      [{ type := "hidden_cycle", strength := 1, risk := "medium"
       , description := "", manipulation := "", predictability := 80
       , pattern := some ("CV"), repetitions := some 2 }]
      ⟨"low", 0, []⟩ ⟨"low", 0, []⟩).strategy = "SEGUIR CICLO" ∧
    (make_prediction ["C","V","C"]
      [{ type := "hidden_cycle", strength := 1, risk := "medium"
       , description := "", manipulation := "", predictability := 80
       , pattern := some ("CV"), repetitions := some 2 }]
      ⟨"low", 0, []⟩ ⟨"low", 0, []⟩).color =
      some (String.singleton ((("CV" : String)).data.getD
        ((nonEmpate ["C","V","C"]).length % ("CV" : String).length) 'E')) ∧
    (make_prediction ["C","V","C"]
      [{ type := "hidden_cycle", strength := 1, risk := "medium"
       , description := "", manipulation := "", predictability := 80
       , pattern := some ("CV"), repetitions := some 2 }]
      ⟨"low", 0, []⟩ ⟨"low", 0, []⟩).confidence =
      min 70 (50 + ((2 : ℕ) : ℚ) * 5) :=
  cycle_follow_prediction ["C","V","C"]
    [{ type := "hidden_cycle", strength := 1, risk := "medium"
     , description := "", manipulation := "", predictability := 80
     , pattern := some ("CV"), repetitions := some 2 }]
    ⟨"low", 0, []⟩ ⟨"low", 0, []⟩
    { type := "hidden_cycle", strength := 1, risk := "medium"
    , description := "", manipulation := "", predictability := 80
    , pattern := some ("CV"), repetitions := some 2 }
    "CV" rfl rfl (by decide) (by decide) rfl rfl (by simp)

/-- Every pattern emitted by one compensation window carries that window's
size and the facts of the branch that produced it. -/
lemma comp_patterns_for_cases (ne : List String) (W : Nat) (p : Pattern)
    (hp : p ∈ comp_patterns_for ne W) :
    (p.type = "artificial_balance" ∧ p.window_size = some W ∧
      balance_ratio ne W < 1/10 ∧ 15 ≤ W) ∨
    (p.type = "compensation_pending" ∧ p.window_size = some W ∧
      2/5 < balance_ratio ne W ∧ p.strength = balance_ratio ne W ∧
      p.favored_color = some (if (comp_window ne W).count ("C") <
        (comp_window ne W).count ("V") then "C" else "V")) := by
  simp only [comp_patterns_for] at hp
  split at hp
  · cases hp
  · rcases List.mem_append.1 hp with h | h
    · split at h
      · rename_i hcond
        rw [List.mem_singleton.1 h]
        exact Or.inl ⟨rfl, rfl, hcond.1, hcond.2⟩
      · cases h
    · split at h
      · rename_i hcond
        rw [List.mem_singleton.1 h]
        exact Or.inr ⟨rfl, rfl, hcond, rfl, rfl⟩
      · cases h

/-- Every pattern emitted by the compensation detector comes from one of
the three windows 12, 15, 18. -/
lemma comp_mem_window (results : List String) (p : Pattern)
    (hp : p ∈ analyze_compensation_patterns results) :
    ∃ W, (W = 12 ∨ W = 15 ∨ W = 18) ∧ p ∈ comp_patterns_for (nonEmpate results) W := by
  unfold analyze_compensation_patterns at hp
  split at hp
  · cases hp
  · rcases List.mem_append.1 hp with h | h
    · rcases List.mem_append.1 h with h' | h'
      · exact ⟨12, Or.inl rfl, h'⟩
      · exact ⟨15, Or.inr (Or.inl rfl), h'⟩
    · exact ⟨18, Or.inr (Or.inr rfl), h⟩

/-- C6: for any window size `W`, `artificial_balance` and
`compensation_pending` are never both emitted for that window (their
threshold conditions on the balance ratio are disjoint), and every
`compensation_pending` pattern names the underrepresented outcome kind as
`favored_color` and carries `strength = balance_ratio`. -/
theorem compensation_window_exclusive (results : List String) (W : Nat) (p q : Pattern)
    (hp : p ∈ analyze_compensation_patterns results)
    (hq : q ∈ analyze_compensation_patterns results)
    (hpt : p.type = "compensation_pending")
    (hpw : p.window_size = some W) (hqw : q.window_size = some W) :
    q.type ≠ "artificial_balance" ∧
    2/5 < balance_ratio (nonEmpate results) W ∧
    p.strength = balance_ratio (nonEmpate results) W ∧
    ((p.favored_color = some "C" ∧
        (comp_window (nonEmpate results) W).count ("C") <
          (comp_window (nonEmpate results) W).count ("V")) ∨
     (p.favored_color = some "V" ∧
        (comp_window (nonEmpate results) W).count ("V") <
          (comp_window (nonEmpate results) W).count ("C"))) := by
  obtain ⟨Wp, _, hpmem⟩ := comp_mem_window results p hp
  rcases comp_patterns_for_cases _ _ _ hpmem with ⟨ht', _⟩ | ⟨_, hw', h25, hs, hf⟩
  · rw [hpt] at ht'
    exact absurd ht' (by decide)
  · have hWp : Wp = W := by
      have := hw'.symm.trans hpw
      exact Option.some.inj this
    subst hWp
    have himb : comp_imbalance (nonEmpate results) Wp ≠ 0 := by
      intro h0
      unfold balance_ratio at h25
      rw [h0] at h25
      norm_num at h25
    have hcv : (comp_window (nonEmpate results) Wp).count ("C") ≠
        (comp_window (nonEmpate results) Wp).count ("V") := by
      intro hEq
      apply himb
      unfold comp_imbalance
      rw [hEq]
      simp
    refine ⟨?_, h25, hs, ?_⟩
    · intro hqt
      obtain ⟨Wq, _, hqmem⟩ := comp_mem_window results q hq
      rcases comp_patterns_for_cases _ _ _ hqmem with ⟨_, hqw', hlow, _⟩ | ⟨ht', _⟩
      · have hWq : Wq = Wp := by
          have := hqw'.symm.trans hqw
          exact Option.some.inj this
        subst hWq
        linarith
      · rw [hqt] at ht'
        exact absurd ht' (by decide)
    · by_cases hlt : (comp_window (nonEmpate results) Wp).count ("C") <
          (comp_window (nonEmpate results) Wp).count ("V")
      · refine Or.inl ⟨?_, hlt⟩
        rw [hf, if_pos hlt]
      · refine Or.inr ⟨?_, by omega⟩
        rw [hf, if_neg hlt]

/-- Witness for C6: on the all-"C" 20-outcome history, window 12 emits a
`compensation_pending` favoring the underrepresented "V". -/
theorem compensation_window_exclusive_witness :
    comp_pending_12.type ≠ "artificial_balance" ∧
    2/5 < balance_ratio (nonEmpate all_player_history) 12 ∧
    comp_pending_12.strength = balance_ratio (nonEmpate all_player_history) 12 ∧
    ((comp_pending_12.favored_color = some "C" ∧
        (comp_window (nonEmpate all_player_history) 12).count ("C") <
          (comp_window (nonEmpate all_player_history) 12).count ("V")) ∨
     (comp_pending_12.favored_color = some "V" ∧
        (comp_window (nonEmpate all_player_history) 12).count ("V") <
          (comp_window (nonEmpate all_player_history) 12).count ("C"))) := by
  have hratio : 2/5 < balance_ratio (nonEmpate all_player_history) 12 := by
    have himb : comp_imbalance (nonEmpate all_player_history) 12 = 12 := by decide
    unfold balance_ratio
    rw [himb]
    norm_num
  have h12 : comp_patterns_for (nonEmpate all_player_history) 12 = [comp_pending_12] := by
    simp only [comp_patterns_for]
    rw [if_neg (by decide : ¬((nonEmpate all_player_history).length < 12)),
        if_neg (fun h => absurd h.2 (by decide)), if_pos hratio]
    rfl
  have hmem : comp_pending_12 ∈ analyze_compensation_patterns all_player_history := by
    unfold analyze_compensation_patterns
    rw [if_neg (by decide : ¬((nonEmpate all_player_history).length < 20)), h12]
    exact List.mem_append.2 (Or.inl (List.mem_append.2 (Or.inl (List.Mem.head _))))
  exact compensation_window_exclusive all_player_history 12 comp_pending_12 comp_pending_12
    hmem hmem rfl rfl rfl

end Hacker
